import Mathlib

/-!
Verification of the contact-form page (`src/unnamed/part_000`).

The page holds form values for six fields, validates them with zod
schemas in `validateForm`, and runs a small interaction model:
`handleFormSubmit` revalidates everything, and the per-field `onChange`
handlers patch a single error entry once the form was submitted.
We embed the data model, the validator and the event handlers, and prove
the stated properties about them.
-/

/-- The `queryType` enum from `z.enum(["generalEnquiry", "supportRequest"])`. -/
inductive QueryType : Type
  | generalEnquiry : QueryType
  | supportRequest : QueryType
deriving DecidableEq, Repr

/-- `FormDataProps`: queryType is the enum or `null`, three text fields,
a message and a consent boolean. -/
structure FormValues where
  queryType : Option QueryType
  firstName : String
  lastName : String
  email : String
  message : String
  consent : Bool
deriving DecidableEq, Repr

/-- `FormErrorsProps`: each field optionally carries an error message
(an absent key is modelled as `none`). -/
structure FormErrors where
  queryType : Option String
  firstName : Option String
  lastName : Option String
  email : Option String
  message : Option String
  consent : Option String
deriving DecidableEq, Repr

/-- The empty error mapping `{}`. -/
def emptyErrors : FormErrors :=
  { queryType := none, firstName := none, lastName := none,
    email := none, message := none, consent := none }

/-- `Object.keys(e).length === 0` for an error object produced by
`validateForm` (which only ever assigns present messages). -/
def errorsIsEmpty (e : FormErrors) : Bool :=
  e.queryType.isNone && e.firstName.isNone && e.lastName.isNone &&
  e.email.isNone && e.message.isNone && e.consent.isNone

/-- Whitespace for JavaScript `String.prototype.trim` (ECMAScript
`TrimString`): the WhiteSpace production (tab, vertical tab, form feed,
space, NBSP, BOM and every Unicode Space_Separator — U+1680,
U+2000–U+200A, U+202F, U+205F, U+3000) together with the LineTerminator
production (LF, CR, U+2028 line separator, U+2029 paragraph separator). -/
def isJsWhitespace (c : Char) : Bool :=
  c = ' ' || c = '\t' || c = '\n' || c = '\r' ||
  c = '\u000B' || c = '\u000C' || c.toNat = 160 || c.toNat = 5760 ||
  (8192 ≤ c.toNat && c.toNat ≤ 8202) ||
  c.toNat = 8232 || c.toNat = 8233 || c.toNat = 8239 || c.toNat = 8287 ||
  c.toNat = 12288 || c.toNat = 65279

/-- JavaScript `s.trim()`: strip leading and trailing whitespace. -/
def jsTrim (s : String) : String :=
  (((s.toList.dropWhile isJsWhitespace).reverse.dropWhile isJsWhitespace).reverse).asString

/-- `z.string().min(lo).max(hi)`: the length must lie in `[lo, hi]`. -/
def strLenBetween (lo hi : Nat) (s : String) : Bool :=
  decide (lo ≤ s.length ∧ s.length ≤ hi)

/-- ASCII letter or digit, as in zod's email regex character classes
(the regex carries the `i` flag, so both cases are allowed). -/
def isAsciiAlnum (c : Char) : Bool :=
  c.isAlpha || c.isDigit

/-- Characters allowed in the local part of an address by zod's email
regex: letters, digits, underscore, apostrophe, plus, hyphen, dot. -/
def isEmailLocalChar (c : Char) : Bool :=
  isAsciiAlnum c || c = '_' || c = Char.ofNat 39 || c = '+' || c = '-' || c = '.'

/-- Characters on which the local part may end: as above but without the
dot and the apostrophe. -/
def isEmailLocalEnd (c : Char) : Bool :=
  isAsciiAlnum c || c = '_' || c = '+' || c = '-'

/-- No two consecutive dots (the regex lookahead `(?!.*\.\.)`). -/
def noDoubleDot : List Char → Bool
  | [] => true
  | [_] => true
  | c :: d :: rest => !(c = '.' && d = '.') && noDoubleDot (d :: rest)

/-- Split a character list on a separator, like `String.splitOn` on a
one-character separator; the result is always nonempty. -/
def splitOnChar (sep : Char) : List Char → List (List Char)
  | [] => [[]]
  | c :: rest =>
    let r := splitOnChar sep rest
    if c = sep then [] :: r
    else
      match r with
      | [] => [[c]]
      | p :: ps => (c :: p) :: ps

/-- Local part of an address, per zod's regex
`(?!\.)(?!.*\.\.)([A-Z0-9_'+\-\.]*)[A-Z0-9_+-]` (case-insensitive):
nonempty, drawn from the local character class, not starting with a dot,
no double dot, and ending on a non-dot, non-apostrophe character. -/
def localPartOk (l : List Char) : Bool :=
  match l with
  | [] => false
  | c :: _ =>
    l.all isEmailLocalChar &&
    (match l.getLast? with
     | some d => isEmailLocalEnd d
     | none => false) &&
    !(c = '.') && noDoubleDot l

/-- One non-final domain label, per `[A-Z0-9][A-Z0-9\-]*` (case-insensitive). -/
def labelOk (l : List Char) : Bool :=
  match l with
  | [] => false
  | c :: rest => isAsciiAlnum c && rest.all (fun d => isAsciiAlnum d || d = '-')

/-- The final label (TLD), per `[A-Z]{2,}` (case-insensitive). -/
def tldOk (l : List Char) : Bool :=
  decide (2 ≤ l.length) && l.all Char.isAlpha

/-- Domain part of an address, per `([A-Z0-9][A-Z0-9\-]*\.)+[A-Z]{2,}`:
at least one dot-separated label followed by a final TLD of letters. -/
def domainOk (d : List Char) : Bool :=
  match (splitOnChar '.' d).reverse with
  | [] => false
  | [_] => false
  | tld :: labels => tldOk tld && labels.all labelOk

/-- `z.string().email()`: zod validates addresses with the regex
`/^(?!\.)(?!.*\.\.)([A-Z0-9_'+\-\.]*)[A-Z0-9_+-]@([A-Z0-9][A-Z0-9\-]*\.)+[A-Z]{2,}$/i`.
Neither character class contains `@`, so a match has exactly one `@`
splitting the string into a local part and a domain. -/
def zodEmailCheck (s : String) : Bool :=
  match splitOnChar '@' s.toList with
  | [l, d] => localPartOk l && domainOk d
  | _ => false

/-- `queryTypeSchema.safeParse(formData.queryType).success`:
`z.enum` rejects `null` and accepts both enum members. -/
def queryTypeParseOk (q : Option QueryType) : Bool :=
  q.isSome

/-- `firstNameSchema` / `lastNameSchema`: `z.string().min(2).max(50)`. -/
def nameParseOk (s : String) : Bool :=
  strLenBetween 2 50 s

/-- `messageSchema`: `z.string().min(10).max(500)`. -/
def messageParseOk (s : String) : Bool :=
  strLenBetween 10 500 s

/-- `consentSchema.safeParse(formData.consent).success`: `z.literal(true)`. -/
def consentParseOk (b : Bool) : Bool :=
  b

/-- `validateForm` from `src/unnamed/part_000`, lines 51–91: each field is
checked with its zod schema; the name and message fields additionally get
"This field is required" when the schema passes but the trimmed value is
empty. -/
def validateForm (formData : FormValues) : FormErrors :=
  { queryType :=
      if !(queryTypeParseOk formData.queryType) then
        some "Please select a query type"
      else none
    firstName :=
      if !(nameParseOk formData.firstName) then
        some "First name must be between 2 and 50 characters"
      else if jsTrim formData.firstName = "" then
        some "This field is required"
      else none
    lastName :=
      if !(nameParseOk formData.lastName) then
        some "Last name must be between 2 and 50 characters"
      else if jsTrim formData.lastName = "" then
        some "This field is required"
      else none
    email :=
      if !(zodEmailCheck formData.email) then
        some "Please enter a valid email address"
      else none
    message :=
      if !(messageParseOk formData.message) then
        some "Message must be between 10 and 500 characters."
      else if jsTrim formData.message = "" then
        some "This field is required"
      else none
    consent :=
      if !(consentParseOk formData.consent) then
        some "To submit this form, please consent to being contacted"
      else none }

/-- The discrete events of the page: one edit event per field (carrying
the new value, exactly as the `onChange` / `onClick` handlers receive it),
the form submit, and one millisecond of time passing (under which a due
`setTimeout` callback fires). -/
inductive Event : Type
  | editFirstName : String → Event
  | editLastName : String → Event
  | editEmail : String → Event
  | selectQuery : QueryType → Event
  | editMessage : String → Event
  | toggleConsent : Event
  | submit : Event
  | tick : Event
deriving DecidableEq, Repr

/-- The component state: the `useState` hooks of `Home`, plus a clock and
the pending `setTimeout` deadlines so the popup timers can be reasoned
about. -/
structure AppState where
  values : FormValues
  errors : FormErrors
  formSubmitted : Bool
  showPopup : Bool
  now : Nat
  timers : List Nat
deriving DecidableEq, Repr

/-- The initial state of all hooks: empty strings, `null` query, consent
unchecked, no errors, both flags false. -/
def initState : AppState :=
  { values := { queryType := none, firstName := "", lastName := "",
                email := "", message := "", consent := false }
    errors := emptyErrors
    formSubmitted := false
    showPopup := false
    now := 0
    timers := [] }

/-- The incremental revalidation done by every field handler after the
first submit: run `validateForm` on the updated snapshot and copy over
only the edited field's entry (lines 154–166 and its five analogues). -/
def patchErrors (prev : FormErrors) (fresh : FormErrors) : Event → FormErrors
  | Event.editFirstName _ => { prev with firstName := fresh.firstName }
  | Event.editLastName _ => { prev with lastName := fresh.lastName }
  | Event.editEmail _ => { prev with email := fresh.email }
  | Event.selectQuery _ => { prev with queryType := fresh.queryType }
  | Event.editMessage _ => { prev with message := fresh.message }
  | Event.toggleConsent => { prev with consent := fresh.consent }
  | _ => prev

/-- The updated `FormValues` snapshot an edit event produces (the handlers
validate `{...getFormData(), field: newValue}`, which equals the new
snapshot). -/
def applyEdit (v : FormValues) : Event → FormValues
  | Event.editFirstName s => { v with firstName := s }
  | Event.editLastName s => { v with lastName := s }
  | Event.editEmail s => { v with email := s }
  | Event.selectQuery q => { v with queryType := some q }
  | Event.editMessage s => { v with message := s }
  | Event.toggleConsent => { v with consent := !v.consent }
  | _ => v

/-- Whether an event is a field edit (as opposed to submit or time). -/
def Event.isFieldEdit : Event → Bool
  | Event.submit => false
  | Event.tick => false
  | _ => true

/-- One step of the interaction model.

* A field edit updates the value; if `formSubmitted` is set it also
  recomputes `validateForm` on the updated snapshot and patches only that
  field's error entry (the `onChange` handlers).
* `submit` is `handleFormSubmit`: set `formSubmitted`, replace the errors
  wholesale, and if they are empty show the popup and schedule a
  `setTimeout(..., 5000)` that will clear it.
* `tick` advances time by 1 ms; every timer that has reached its deadline
  fires, setting `showPopup` to false, and is removed. -/
def step (s : AppState) (e : Event) : AppState :=
  match e with
  | Event.submit =>
    let validationErrors := validateForm s.values
    if errorsIsEmpty validationErrors then
      { s with formSubmitted := true, errors := validationErrors,
               showPopup := true, timers := (s.now + 5000) :: s.timers }
    else
      { s with formSubmitted := true, errors := validationErrors }
  | Event.tick =>
    { s with now := s.now + 1
             showPopup := if s.timers.any (fun t => t ≤ s.now + 1) then false
                          else s.showPopup
             timers := s.timers.filter (fun t => s.now + 1 < t) }
  | e =>
    let newValues := applyEdit s.values e
    { s with values := newValues
             errors := if s.formSubmitted then
                 patchErrors s.errors (validateForm newValues) e
               else s.errors }

/-- Run a list of events in order. -/
def runEvents (s : AppState) : List Event → AppState
  | [] => s
  | e :: es => runEvents (step s e) es

/-- §4.1 rule for queryType, stated from the spec's words: it "must be
`GeneralEnquiry` or `SupportRequest`". -/
abbrev RuleQueryType (q : Option QueryType) : Prop :=
  q = some QueryType.generalEnquiry ∨ q = some QueryType.supportRequest

/-- §4.1 rule for firstName and lastName: length in `[2,50]`, and the
trimmed value must not be empty (otherwise "This field is required"). -/
abbrev RuleName (s : String) : Prop :=
  (2 ≤ s.length ∧ s.length ≤ 50) ∧ jsTrim s ≠ ""

/-- §4.1 rule for email: "must match a standard email-address syntax",
which the implementation delegates to zod's address syntax. -/
abbrev RuleEmail (s : String) : Prop :=
  zodEmailCheck s = true

/-- §4.1 rule for message: length in `[10,500]` and trimmed nonempty. -/
abbrev RuleMessage (s : String) : Prop :=
  (10 ≤ s.length ∧ s.length ≤ 500) ∧ jsTrim s ≠ ""

/-- §4.1 rule for consent: "must equal boolean `true`". -/
abbrev RuleConsent (b : Bool) : Prop :=
  b = true

/-- The fully valid snapshot from §8 of the spec. -/
def validValues : FormValues :=
  { queryType := some QueryType.generalEnquiry, firstName := "Jane",
    lastName := "Doe", email := "jane@example.com",
    message := "Hello, this is a test message.", consent := true }

/-- A snapshot whose firstName, lastName and message are ten spaces. -/
def wsValues : FormValues :=
  { queryType := none, firstName := "          ", lastName := "          ",
    email := "", message := "          ", consent := false }

/-- A snapshot with an empty firstName and a one-space lastName, both of
which violate the length bound. -/
def shortValues : FormValues :=
  { queryType := none, firstName := "", lastName := " ",
    email := "", message := "", consent := false }

/-- A state reached by one failed submit from the initial state. -/
def failedSubmitState : AppState :=
  step initState Event.submit

/-- The initial state with the §8 fully valid snapshot filled in. -/
def validState : AppState :=
  { initState with values := validValues }

/-- A snapshot whose firstName is ten U+3000 ideographic spaces — a
whitespace-only string outside ASCII that `trim` still strips. -/
def cjkWsValues : FormValues :=
  { queryType := none, firstName := (List.replicate 10 (Char.ofNat 12288)).asString,
    lastName := "", email := "", message := "", consent := false }

lemma nameParseOk_iff (s : String) :
    nameParseOk s = true ↔ 2 ≤ s.length ∧ s.length ≤ 50 := by
  simp [nameParseOk, strLenBetween]

lemma messageParseOk_iff (s : String) :
    messageParseOk s = true ↔ 10 ≤ s.length ∧ s.length ≤ 500 := by
  simp [messageParseOk, strLenBetween]

lemma validateForm_queryType_eq_none (v : FormValues) :
    (validateForm v).queryType = none ↔ RuleQueryType v.queryType := by
  cases hq : v.queryType with
  | none => simp [validateForm, queryTypeParseOk, RuleQueryType, hq]
  | some q => cases q <;> simp [validateForm, queryTypeParseOk, RuleQueryType, hq]

lemma validateForm_firstName_eq_none (v : FormValues) :
    (validateForm v).firstName = none ↔ RuleName v.firstName := by
  by_cases h1 : nameParseOk v.firstName = true
  · by_cases h2 : jsTrim v.firstName = "" <;>
      simp [validateForm, RuleName, h1, h2, ← nameParseOk_iff]
  · simp [validateForm, RuleName, h1, ← nameParseOk_iff]

lemma validateForm_lastName_eq_none (v : FormValues) :
    (validateForm v).lastName = none ↔ RuleName v.lastName := by
  by_cases h1 : nameParseOk v.lastName = true
  · by_cases h2 : jsTrim v.lastName = "" <;>
      simp [validateForm, RuleName, h1, h2, ← nameParseOk_iff]
  · simp [validateForm, RuleName, h1, ← nameParseOk_iff]

lemma validateForm_email_eq_none (v : FormValues) :
    (validateForm v).email = none ↔ RuleEmail v.email := by
  by_cases h : zodEmailCheck v.email = true <;>
    simp [validateForm, RuleEmail, h]

lemma validateForm_message_eq_none (v : FormValues) :
    (validateForm v).message = none ↔ RuleMessage v.message := by
  by_cases h1 : messageParseOk v.message = true
  · by_cases h2 : jsTrim v.message = "" <;>
      simp [validateForm, RuleMessage, h1, h2, ← messageParseOk_iff]
  · simp [validateForm, RuleMessage, h1, ← messageParseOk_iff]

lemma validateForm_consent_eq_none (v : FormValues) :
    (validateForm v).consent = none ↔ RuleConsent v.consent := by
  cases hb : v.consent <;>
    simp [validateForm, consentParseOk, RuleConsent, hb]

/-- C1: for every `FormValues` snapshot, each field's error key is present
in `validateForm`'s result iff that field individually violates its §4.1
rule — a predicate of that field's value alone — and when every field
satisfies its rule, `validateForm` returns the empty mapping. -/
theorem c1_per_field_rules (v : FormValues) :
    ((validateForm v).queryType ≠ none ↔ ¬ RuleQueryType v.queryType) ∧
    ((validateForm v).firstName ≠ none ↔ ¬ RuleName v.firstName) ∧
    ((validateForm v).lastName ≠ none ↔ ¬ RuleName v.lastName) ∧
    ((validateForm v).email ≠ none ↔ ¬ RuleEmail v.email) ∧
    ((validateForm v).message ≠ none ↔ ¬ RuleMessage v.message) ∧
    ((validateForm v).consent ≠ none ↔ ¬ RuleConsent v.consent) ∧
    (RuleQueryType v.queryType → RuleName v.firstName → RuleName v.lastName →
      RuleEmail v.email → RuleMessage v.message → RuleConsent v.consent →
      validateForm v = emptyErrors) := by
  refine ⟨not_congr (validateForm_queryType_eq_none v), ?_, ?_, ?_, ?_, ?_, ?_⟩
  · exact not_congr (validateForm_firstName_eq_none v)
  · exact not_congr (validateForm_lastName_eq_none v)
  · exact not_congr (validateForm_email_eq_none v)
  · exact not_congr (validateForm_message_eq_none v)
  · exact not_congr (validateForm_consent_eq_none v)
  · intro h1 h2 h3 h4 h5 h6
    have e1 := (validateForm_queryType_eq_none v).mpr h1
    have e2 := (validateForm_firstName_eq_none v).mpr h2
    have e3 := (validateForm_lastName_eq_none v).mpr h3
    have e4 := (validateForm_email_eq_none v).mpr h4
    have e5 := (validateForm_message_eq_none v).mpr h5
    have e6 := (validateForm_consent_eq_none v).mpr h6
    cases hv : validateForm v
    rw [hv] at e1 e2 e3 e4 e5 e6
    simp only at e1 e2 e3 e4 e5 e6
    simp [emptyErrors, e1, e2, e3, e4, e5, e6]

/-- Witness for C1 at the fully valid snapshot. -/
theorem c1_per_field_rules_witness : validateForm validValues = emptyErrors :=
  (c1_per_field_rules validValues).2.2.2.2.2.2
    (by decide) (by decide) (by decide) (by decide) (by decide) (by decide)

lemma asString_eq_empty_iff (l : List Char) : l.asString = "" ↔ l = [] := by
  constructor
  · intro h
    have h2 := congrArg String.toList h
    simpa [String.toList, List.asString] using h2
  · intro h
    simp [h, List.asString]

lemma jsTrim_eq_empty_iff (s : String) :
    jsTrim s = "" ↔ s.toList.all isJsWhitespace = true := by
  unfold jsTrim
  rw [asString_eq_empty_iff, List.reverse_eq_nil_iff, List.dropWhile_eq_nil_iff,
    List.all_eq_true]
  constructor
  · intro h x hx
    rw [← List.takeWhile_append_dropWhile (p := isJsWhitespace) (l := s.toList)]
      at hx
    rcases List.mem_append.mp hx with h1 | h1
    · exact List.mem_takeWhile_imp h1
    · exact h x (List.mem_reverse.mpr h1)
  · intro h x hx
    exact h x (List.dropWhile_sublist _ |>.mem (List.mem_reverse.mp hx))

/-- C2: a firstName, lastName or message consisting only of whitespace
whose length is within the field's bound receives "This field is
required" from `validateForm`, not the length-range message: the
trimmed-empty check runs once the length check passes and overrides it. -/
theorem c2_whitespace_only_required (v : FormValues) :
    (2 ≤ v.firstName.length → v.firstName.length ≤ 50 →
      v.firstName.toList.all isJsWhitespace = true →
      (validateForm v).firstName = some "This field is required") ∧
    (2 ≤ v.lastName.length → v.lastName.length ≤ 50 →
      v.lastName.toList.all isJsWhitespace = true →
      (validateForm v).lastName = some "This field is required") ∧
    (10 ≤ v.message.length → v.message.length ≤ 500 →
      v.message.toList.all isJsWhitespace = true →
      (validateForm v).message = some "This field is required") := by
  refine ⟨fun hlo hhi hws => ?_, fun hlo hhi hws => ?_, fun hlo hhi hws => ?_⟩
  · have hp : nameParseOk v.firstName = true := (nameParseOk_iff _).mpr ⟨hlo, hhi⟩
    have ht : jsTrim v.firstName = "" := (jsTrim_eq_empty_iff _).mpr hws
    simp [validateForm, hp, ht]
  · have hp : nameParseOk v.lastName = true := (nameParseOk_iff _).mpr ⟨hlo, hhi⟩
    have ht : jsTrim v.lastName = "" := (jsTrim_eq_empty_iff _).mpr hws
    simp [validateForm, hp, ht]
  · have hp : messageParseOk v.message = true :=
      (messageParseOk_iff _).mpr ⟨hlo, hhi⟩
    have ht : jsTrim v.message = "" := (jsTrim_eq_empty_iff _).mpr hws
    simp [validateForm, hp, ht]

/-- Witness for C2 at ten-space strings. -/
theorem c2_whitespace_only_required_witness :
    (validateForm wsValues).firstName = some "This field is required" ∧
    (validateForm wsValues).lastName = some "This field is required" ∧
    (validateForm wsValues).message = some "This field is required" :=
  ⟨(c2_whitespace_only_required wsValues).1 (by decide) (by decide) (by decide),
   (c2_whitespace_only_required wsValues).2.1 (by decide) (by decide) (by decide),
   (c2_whitespace_only_required wsValues).2.2 (by decide) (by decide) (by decide)⟩

/-- C9: a firstName or lastName failing the length bound `[2,50]` —
including `""` and `" "` — always gets the length-range message, and
"This field is required" is produced exactly for whitespace-only strings
whose length lies within `[2,50]`. -/
theorem c9_length_message_priority (v : FormValues) :
    (¬ (2 ≤ v.firstName.length ∧ v.firstName.length ≤ 50) →
      (validateForm v).firstName =
        some "First name must be between 2 and 50 characters") ∧
    ((validateForm v).firstName = some "This field is required" ↔
      (2 ≤ v.firstName.length ∧ v.firstName.length ≤ 50) ∧
        v.firstName.toList.all isJsWhitespace = true) ∧
    (¬ (2 ≤ v.lastName.length ∧ v.lastName.length ≤ 50) →
      (validateForm v).lastName =
        some "Last name must be between 2 and 50 characters") ∧
    ((validateForm v).lastName = some "This field is required" ↔
      (2 ≤ v.lastName.length ∧ v.lastName.length ≤ 50) ∧
        v.lastName.toList.all isJsWhitespace = true) := by
  refine ⟨fun h => ?_, ?_, fun h => ?_, ?_⟩
  · have hp : nameParseOk v.firstName = false := by
      rw [← Bool.not_eq_true, nameParseOk_iff]; exact h
    simp [validateForm, hp]
  · rw [← jsTrim_eq_empty_iff, ← nameParseOk_iff]
    by_cases h1 : nameParseOk v.firstName = true
    · by_cases h2 : jsTrim v.firstName = "" <;> simp [validateForm, h1, h2]
    · simp [validateForm, h1]
  · have hp : nameParseOk v.lastName = false := by
      rw [← Bool.not_eq_true, nameParseOk_iff]; exact h
    simp [validateForm, hp]
  · rw [← jsTrim_eq_empty_iff, ← nameParseOk_iff]
    by_cases h1 : nameParseOk v.lastName = true
    · by_cases h2 : jsTrim v.lastName = "" <;> simp [validateForm, h1, h2]
    · simp [validateForm, h1]

/-- Witness for C9: `""` and `" "` get the length message, while ten
ASCII spaces and ten U+3000 ideographic spaces get the required message
through the iff. -/
theorem c9_length_message_priority_witness :
    (validateForm shortValues).firstName =
      some "First name must be between 2 and 50 characters" ∧
    (validateForm shortValues).lastName =
      some "Last name must be between 2 and 50 characters" ∧
    (validateForm wsValues).firstName = some "This field is required" ∧
    (validateForm cjkWsValues).firstName = some "This field is required" :=
  ⟨(c9_length_message_priority shortValues).1 (by decide),
   (c9_length_message_priority shortValues).2.2.1 (by decide),
   (c9_length_message_priority wsValues).2.1.mpr ⟨by decide, by decide⟩,
   (c9_length_message_priority cjkWsValues).2.1.mpr ⟨by decide, by decide⟩⟩

lemma validateForm_queryType_congr (v₁ v₂ : FormValues)
    (h : v₁.queryType = v₂.queryType) :
    (validateForm v₁).queryType = (validateForm v₂).queryType := by
  simp [validateForm, h]

lemma validateForm_firstName_congr (v₁ v₂ : FormValues)
    (h : v₁.firstName = v₂.firstName) :
    (validateForm v₁).firstName = (validateForm v₂).firstName := by
  simp [validateForm, h]

lemma validateForm_lastName_congr (v₁ v₂ : FormValues)
    (h : v₁.lastName = v₂.lastName) :
    (validateForm v₁).lastName = (validateForm v₂).lastName := by
  simp [validateForm, h]

lemma validateForm_email_congr (v₁ v₂ : FormValues)
    (h : v₁.email = v₂.email) :
    (validateForm v₁).email = (validateForm v₂).email := by
  simp [validateForm, h]

lemma validateForm_message_congr (v₁ v₂ : FormValues)
    (h : v₁.message = v₂.message) :
    (validateForm v₁).message = (validateForm v₂).message := by
  simp [validateForm, h]

lemma validateForm_consent_congr (v₁ v₂ : FormValues)
    (h : v₁.consent = v₂.consent) :
    (validateForm v₁).consent = (validateForm v₂).consent := by
  simp [validateForm, h]

/-- C10: each field's entry in `validateForm` depends only on that field's
own value, so the single-field error patched by an incremental edit
handler is determined by the edited field's new value alone. -/
theorem c10_per_field_determinism (v₁ v₂ : FormValues) (s₁ s₂ : AppState)
    (x : String) (q : QueryType) :
    (v₁.queryType = v₂.queryType →
      (validateForm v₁).queryType = (validateForm v₂).queryType) ∧
    (v₁.firstName = v₂.firstName →
      (validateForm v₁).firstName = (validateForm v₂).firstName) ∧
    (v₁.lastName = v₂.lastName →
      (validateForm v₁).lastName = (validateForm v₂).lastName) ∧
    (v₁.email = v₂.email →
      (validateForm v₁).email = (validateForm v₂).email) ∧
    (v₁.message = v₂.message →
      (validateForm v₁).message = (validateForm v₂).message) ∧
    (v₁.consent = v₂.consent →
      (validateForm v₁).consent = (validateForm v₂).consent) ∧
    (s₁.formSubmitted = true → s₂.formSubmitted = true →
      (step s₁ (Event.editFirstName x)).errors.firstName =
        (step s₂ (Event.editFirstName x)).errors.firstName) ∧
    (s₁.formSubmitted = true → s₂.formSubmitted = true →
      (step s₁ (Event.editLastName x)).errors.lastName =
        (step s₂ (Event.editLastName x)).errors.lastName) ∧
    (s₁.formSubmitted = true → s₂.formSubmitted = true →
      (step s₁ (Event.editEmail x)).errors.email =
        (step s₂ (Event.editEmail x)).errors.email) ∧
    (s₁.formSubmitted = true → s₂.formSubmitted = true →
      (step s₁ (Event.editMessage x)).errors.message =
        (step s₂ (Event.editMessage x)).errors.message) ∧
    (s₁.formSubmitted = true → s₂.formSubmitted = true →
      (step s₁ (Event.selectQuery q)).errors.queryType =
        (step s₂ (Event.selectQuery q)).errors.queryType) := by
  refine ⟨validateForm_queryType_congr v₁ v₂, validateForm_firstName_congr v₁ v₂,
    validateForm_lastName_congr v₁ v₂, validateForm_email_congr v₁ v₂,
    validateForm_message_congr v₁ v₂, validateForm_consent_congr v₁ v₂,
    fun h₁ h₂ => ?_, fun h₁ h₂ => ?_, fun h₁ h₂ => ?_, fun h₁ h₂ => ?_,
    fun h₁ h₂ => ?_⟩
  · simp only [step, applyEdit, patchErrors, h₁, h₂, if_true]
    exact validateForm_firstName_congr _ _ rfl
  · simp only [step, applyEdit, patchErrors, h₁, h₂, if_true]
    exact validateForm_lastName_congr _ _ rfl
  · simp only [step, applyEdit, patchErrors, h₁, h₂, if_true]
    exact validateForm_email_congr _ _ rfl
  · simp only [step, applyEdit, patchErrors, h₁, h₂, if_true]
    exact validateForm_message_congr _ _ rfl
  · simp only [step, applyEdit, patchErrors, h₁, h₂, if_true]
    exact validateForm_queryType_congr _ _ rfl

/-- Witness for C10: two states differing everywhere except the edited
field produce the same patched email entry. -/
theorem c10_per_field_determinism_witness :
    (validateForm wsValues).email = (validateForm shortValues).email ∧
    (step failedSubmitState (Event.editEmail "jane@example.com")).errors.email =
      (step { failedSubmitState with values := validValues }
        (Event.editEmail "jane@example.com")).errors.email :=
  ⟨(c10_per_field_determinism wsValues shortValues failedSubmitState
      { failedSubmitState with values := validValues } "jane@example.com"
      QueryType.generalEnquiry).2.2.2.1 (by decide),
   (c10_per_field_determinism wsValues shortValues failedSubmitState
      { failedSubmitState with values := validValues } "jane@example.com"
      QueryType.generalEnquiry).2.2.2.2.2.2.2.2.1 (by decide) (by decide)⟩

/-- C8: `validateForm` is deterministic — equal snapshots give equal error
mappings — and the submit handler's call to it leaves the snapshot it was
given (and the clock) untouched: its only effects are the explicit
assignments to `errors`, `formSubmitted`, `showPopup` and the timer list. -/
theorem c8_validateForm_pure (v₁ v₂ : FormValues) (s : AppState) :
    (v₁ = v₂ → validateForm v₁ = validateForm v₂) ∧
    (step s Event.submit).values = s.values ∧
    (step s Event.submit).now = s.now := by
  refine ⟨fun h => congrArg validateForm h, ?_, ?_⟩ <;>
    · simp only [step]
      split <;> rfl

/-- Witness for C8 at the fully valid snapshot. -/
theorem c8_validateForm_pure_witness :
    validateForm validValues = validateForm validValues ∧
    (step initState Event.submit).values = initState.values :=
  ⟨(c8_validateForm_pure validValues validValues initState).1 rfl,
   (c8_validateForm_pure validValues validValues initState).2.1⟩

/-- C3: submitting the form in its initial state (all fields empty/unset,
`formSubmitted` false) populates all six error keys, sets `formSubmitted`,
and does not show the popup. -/
theorem c3_empty_submit_all_errors :
    (step initState Event.submit).errors.queryType ≠ none ∧
    (step initState Event.submit).errors.firstName ≠ none ∧
    (step initState Event.submit).errors.lastName ≠ none ∧
    (step initState Event.submit).errors.email ≠ none ∧
    (step initState Event.submit).errors.message ≠ none ∧
    (step initState Event.submit).errors.consent ≠ none ∧
    (step initState Event.submit).formSubmitted = true ∧
    (step initState Event.submit).showPopup = false := by
  decide

/-- C4: once `formSubmitted` is set, each edit event stores the new value
and replaces only the edited field's error entry with the one
`validateForm` computes on the updated full snapshot, leaving every other
entry of `FormErrors` (and the flags and timers) unchanged. -/
theorem c4_incremental_patch (s : AppState) (h : s.formSubmitted = true)
    (x : String) (q : QueryType) :
    (step s (Event.editFirstName x) =
      { s with values := { s.values with firstName := x },
               errors := { s.errors with firstName :=
                 (validateForm { s.values with firstName := x }).firstName } }) ∧
    (step s (Event.editLastName x) =
      { s with values := { s.values with lastName := x },
               errors := { s.errors with lastName :=
                 (validateForm { s.values with lastName := x }).lastName } }) ∧
    (step s (Event.editEmail x) =
      { s with values := { s.values with email := x },
               errors := { s.errors with email :=
                 (validateForm { s.values with email := x }).email } }) ∧
    (step s (Event.editMessage x) =
      { s with values := { s.values with message := x },
               errors := { s.errors with message :=
                 (validateForm { s.values with message := x }).message } }) ∧
    (step s (Event.selectQuery q) =
      { s with values := { s.values with queryType := some q },
               errors := { s.errors with queryType :=
                 (validateForm { s.values with queryType := some q }).queryType } }) ∧
    (step s Event.toggleConsent =
      { s with values := { s.values with consent := !s.values.consent },
               errors := { s.errors with consent :=
                 (validateForm { s.values with consent := !s.values.consent }).consent } }) := by
  refine ⟨?_, ?_, ?_, ?_, ?_, ?_⟩ <;>
    simp only [step, applyEdit, patchErrors, h, if_true]

/-- Witness for C4: after the failed empty submit, fixing only the email
field clears `errors.email` and changes nothing else. -/
theorem c4_incremental_patch_witness :
    step failedSubmitState (Event.editEmail "jane@example.com") =
      { failedSubmitState with
          values := { failedSubmitState.values with email := "jane@example.com" },
          errors := { failedSubmitState.errors with email := none } } := by
  have h := (c4_incremental_patch failedSubmitState (by decide)
    "jane@example.com" QueryType.generalEnquiry).2.2.1
  rw [h]
  decide

/-- C5: the only transition that turns `showPopup` from false to true is a
submit whose validation of the submitted snapshot returns the empty error
mapping; no other event ever sets it. -/
theorem c5_popup_only_after_valid_submit (s : AppState) (e : Event)
    (h1 : s.showPopup = false) (h2 : (step s e).showPopup = true) :
    e = Event.submit ∧ errorsIsEmpty (validateForm s.values) = true := by
  cases e
  case submit =>
    refine ⟨rfl, ?_⟩
    by_cases hv : errorsIsEmpty (validateForm s.values) = true
    · exact hv
    · simp only [step, hv, if_false] at h2
      exact absurd h2 (by simp [h1])
  case tick =>
    simp only [step] at h2
    by_cases ha : s.timers.any (fun t => t ≤ s.now + 1) = true
    · simp [ha] at h2
    · simp [ha, h1] at h2
  all_goals
    simp only [step] at h2
    exact absurd h2 (by simp [h1])

/-- Witness for C5 at a valid-submit transition. -/
theorem c5_popup_only_after_valid_submit_witness :
    Event.submit = Event.submit ∧
    errorsIsEmpty (validateForm validState.values) = true :=
  c5_popup_only_after_valid_submit validState Event.submit (by decide) (by decide)

lemma step_formSubmitted_mono (s : AppState) (e : Event)
    (h : s.formSubmitted = true) : (step s e).formSubmitted = true := by
  cases e <;> (simp only [step, h]; try split <;> rfl)

lemma runEvents_formSubmitted_mono (evs : List Event) (s : AppState)
    (h : s.formSubmitted = true) : (runEvents s evs).formSubmitted = true := by
  induction evs generalizing s with
  | nil => exact h
  | cons e es ih => exact ih (step s e) (step_formSubmitted_mono s e h)

lemma step_pristine (s : AppState) (e : Event) (hf : s.formSubmitted = false)
    (he : s.errors = emptyErrors) (hne : e ≠ Event.submit) :
    (step s e).formSubmitted = false ∧ (step s e).errors = emptyErrors := by
  cases e <;> simp_all [step]

/-- C7: `formSubmitted` starts false, any submit sets it, it then stays
true under every event; while it is still false a field edit changes no
error entry, so before the first submit `FormErrors` remains empty along
every submit-free trace. -/
theorem c7_formSubmitted_permanent :
    initState.formSubmitted = false ∧
    (∀ s : AppState, (step s Event.submit).formSubmitted = true) ∧
    (∀ (s : AppState) (evs : List Event), s.formSubmitted = true →
      (runEvents s evs).formSubmitted = true) ∧
    (∀ (s : AppState) (e : Event), s.formSubmitted = false →
      e.isFieldEdit = true →
      (step s e).errors = s.errors ∧ (step s e).formSubmitted = false ∧
      (step s e).showPopup = s.showPopup) ∧
    (∀ evs : List Event, Event.submit ∉ evs →
      (runEvents initState evs).errors = emptyErrors ∧
      (runEvents initState evs).formSubmitted = false) := by
  refine ⟨rfl, fun s => ?_, fun s evs h => runEvents_formSubmitted_mono evs s h,
    fun s e hf he => ?_, fun evs h => ?_⟩
  · simp only [step]; split <;> rfl
  · cases e <;> simp_all [step, Event.isFieldEdit]
  · suffices h2 : ∀ (evs : List Event) (s : AppState), s.formSubmitted = false →
        s.errors = emptyErrors → Event.submit ∉ evs →
        (runEvents s evs).errors = emptyErrors ∧
        (runEvents s evs).formSubmitted = false by
      exact h2 evs initState rfl rfl h
    intro evs
    induction evs with
    | nil => exact fun s hf he _ => ⟨he, hf⟩
    | cons e es ih =>
      intro s hf he hne
      have hmem : e ≠ Event.submit ∧ Event.submit ∉ es := by
        constructor
        · intro hc; exact hne (by simp [hc])
        · intro hc; exact hne (List.mem_cons_of_mem _ hc)
      have hs := step_pristine s e hf he (fun hc => hmem.1 hc)
      exact ih (step s e) hs.1 hs.2 hmem.2

/-- Witness for C7 along a concrete submit-free trace. -/
theorem c7_formSubmitted_permanent_witness :
    (runEvents initState
      [Event.editFirstName "Jane", Event.tick, Event.toggleConsent]).errors =
      emptyErrors ∧
    (runEvents initState
      [Event.editFirstName "Jane", Event.tick, Event.toggleConsent]).formSubmitted =
      false :=
  c7_formSubmitted_permanent.2.2.2.2
    [Event.editFirstName "Jane", Event.tick, Event.toggleConsent] (by decide)

lemma step_now_mono (s : AppState) (e : Event) : s.now ≤ (step s e).now := by
  cases e <;> simp only [step] <;> first
    | exact Nat.le_refl _
    | exact Nat.le_succ _
    | (split <;> exact Nat.le_refl _)

lemma runEvents_now_mono (evs : List Event) (s : AppState) :
    s.now ≤ (runEvents s evs).now := by
  induction evs generalizing s with
  | nil => exact Nat.le_refl _
  | cons e es ih => exact Nat.le_trans (step_now_mono s e) (ih (step s e))

lemma popup_stays (T : Nat) (evs : List Event) :
    ∀ s : AppState, s.showPopup = true → (∀ t ∈ s.timers, T ≤ t) →
      Event.submit ∉ evs → (runEvents s evs).now < T →
      (runEvents s evs).showPopup = true := by
  induction evs with
  | nil => exact fun s h1 _ _ _ => h1
  | cons e es ih =>
    intro s h1 h2 h3 h4
    have hmem : e ≠ Event.submit ∧ Event.submit ∉ es := by
      constructor
      · intro hc; exact h3 (by simp [hc])
      · intro hc; exact h3 (List.mem_cons_of_mem _ hc)
    have hlt : (step s e).now < T :=
      Nat.lt_of_le_of_lt (runEvents_now_mono es (step s e)) h4
    have hstep : (step s e).showPopup = true ∧ ∀ t ∈ (step s e).timers, T ≤ t := by
      cases e
      case submit => exact absurd rfl hmem.1
      case tick =>
        have hlt2 : s.now + 1 < T := by
          simpa only [step] using hlt
        have hna : s.timers.any (fun t => t ≤ s.now + 1) = false := by
          rw [Bool.eq_false_iff]
          intro hc
          obtain ⟨t, ht, hle⟩ := List.any_eq_true.mp hc
          have hle2 : t ≤ s.now + 1 := by simpa using hle
          have := h2 t ht
          omega
        constructor
        · simp only [step, hna, if_false]
          exact h1
        · intro t ht
          simp only [step] at ht
          exact h2 t (List.mem_of_mem_filter ht)
      all_goals exact ⟨by simpa only [step] using h1, by simpa only [step] using h2⟩
    exact ih (step s e) hstep.1 hstep.2 hmem.2 h4

/-- C6: a fully valid submit sets `showPopup` and pushes a fresh 5000 ms
deadline on top of the already pending ones (none is cancelled); a tick
that reaches any pending deadline clears `showPopup`; and after a valid
submit with no earlier timer pending, `showPopup` is still true along any
submit-free continuation that stays strictly within 5000 ms. -/
theorem c6_popup_timer (s : AppState) (evs : List Event) :
    (errorsIsEmpty (validateForm s.values) = true →
      step s Event.submit =
        { s with formSubmitted := true, errors := validateForm s.values,
                 showPopup := true, timers := (s.now + 5000) :: s.timers }) ∧
    ((∃ t ∈ s.timers, t ≤ s.now + 1) → (step s Event.tick).showPopup = false) ∧
    (errorsIsEmpty (validateForm s.values) = true → s.timers = [] →
      Event.submit ∉ evs →
      (runEvents (step s Event.submit) evs).now < s.now + 5000 →
      (runEvents (step s Event.submit) evs).showPopup = true) := by
  refine ⟨fun h => by simp only [step, h, if_true], fun ⟨t, ht, hle⟩ => ?_,
    fun h1 h2 h3 h4 => ?_⟩
  · have ha : s.timers.any (fun t => t ≤ s.now + 1) = true :=
      List.any_eq_true.mpr ⟨t, ht, by simpa using hle⟩
    simp only [step, ha, if_true]
  · refine popup_stays (s.now + 5000) evs (step s Event.submit) ?_ ?_ h3 h4
    · simp only [step, h1, if_true]
    · intro t ht
      simp only [step, h1, if_true, h2] at ht
      rcases List.mem_singleton.mp ht with rfl
      exact Nat.le_refl _

/-- Witness for C6: a valid submit from the pristine state schedules the
timer, the popup survives two submit-free ticks, and a due timer clears
it. -/
theorem c6_popup_timer_witness :
    step validState Event.submit =
      { validState with formSubmitted := true,
                        errors := validateForm validState.values,
                        showPopup := true,
                        timers := [validState.now + 5000] } ∧
    (runEvents (step validState Event.submit)
      [Event.tick, Event.tick]).showPopup = true ∧
    (step { initState with showPopup := true, timers := [1] }
      Event.tick).showPopup = false :=
  ⟨(c6_popup_timer validState []).1 (by decide),
   (c6_popup_timer validState [Event.tick, Event.tick]).2.2
     (by decide) rfl (by decide) (by decide),
   (c6_popup_timer { initState with showPopup := true, timers := [1] } []).2.1
     ⟨1, by decide, by decide⟩⟩

example : zodEmailCheck "jane@example.com" = true := by decide
example : zodEmailCheck "" = false := by decide
example : zodEmailCheck "a@b" = false := by decide
example : zodEmailCheck "jane.doe+x@mail.example.co" = true := by decide
example : jsTrim "          " = "" := by decide
example : jsTrim " Jane " = "Jane" := by decide
example : validateForm
    { queryType := some QueryType.generalEnquiry, firstName := "Jane",
      lastName := "Doe", email := "jane@example.com",
      message := "Hello, this is a test message.", consent := true } =
    emptyErrors := by decide
